import Mathlib

/-!
Verification development for a PDF-quiz web application.

The application has three parts:
- an upload HTTP handler that validates a batch of PDF files and forwards
  them to a remote document store, returning an opaque vector-store id;
- a generation HTTP handler that, given a vector-store id and a list of
  previously seen question texts, asks a remote assistant for new
  multiple-choice questions, validates them against a strict schema, and
  returns them;
- a client-side quiz session state machine that owns the question list,
  the current index, the per-question answer state and the running score.

Each definition below is a direct shallow embedding of one function of the
source.  Remote collaborators (the document store, the assistant runtime)
are modelled by explicit environment records describing the outcome of
each remote call, so every handler becomes a pure function of its request
and of that environment.
-/

/-- One candidate answer: display text and correctness flag.
Mirrors the client type `Option` and the zod `QuizOptionSchema`. -/
structure QOption where
  text : String
  correct : Bool
deriving Repr, DecidableEq

/-- One quiz question: question text and its ordered options.
Mirrors the client type `QuizQuestion` and the zod `QuizQuestionSchema`. -/
structure QuizQuestion where
  question : String
  options : List QOption
deriving Repr, DecidableEq

/-- Validity of one option under `QuizOptionSchema`:
the option text must be non-empty (`z.string().min(1)`). -/
def optionValid (o : QOption) : Bool :=
  1 ≤ o.text.length

/-- Validity of one question under `QuizQuestionSchema`:
non-empty question text and between 2 and 4 options, each valid. -/
def questionValid (q : QuizQuestion) : Bool :=
  1 ≤ q.question.length &&
  2 ≤ q.options.length && q.options.length ≤ 4 &&
  q.options.all optionValid

/-- Validity of a whole quiz payload under `QuizSchema`:
between 1 and 10 questions, each valid.  This is exactly what
`QuizSchema.parse` checks in the generation route; note that it does NOT
count the options with `correct = true`. -/
def quizSchemaValid (qs : List QuizQuestion) : Bool :=
  1 ≤ qs.length && qs.length ≤ 10 && qs.all questionValid

/-- Number of options of a question whose correctness flag is set. -/
def correctCount (q : QuizQuestion) : Nat :=
  (q.options.filter (fun o => o.correct)).length

/-! ## Client-side quiz session state

The react component keeps the session in separate `useState` cells; we
collect the ones the state machine transitions read and write. -/

/-- The mutable quiz session state of the client page. -/
structure SessionState where
  questions : List QuizQuestion
  currentQuestionIndex : Nat
  selectedOption : Option QOption
  isAnswered : Bool
  score : Nat
  quizStarted : Bool
  quizFinished : Bool
  errorMsg : Option String
deriving Repr, DecidableEq

/-- The initial session state: all cells at their `useState` defaults. -/
def initialSession : SessionState :=
  { questions := []
    currentQuestionIndex := 0
    selectedOption := none
    isAnswered := false
    score := 0
    quizStarted := false
    quizFinished := false
    errorMsg := none }

/-- `resetQuizState` from the page component: clears every quiz cell. -/
def resetQuizState (s : SessionState) : SessionState :=
  { s with questions := []
           currentQuestionIndex := 0
           selectedOption := none
           isAnswered := false
           score := 0
           quizStarted := false
           quizFinished := false
           errorMsg := none }

/-- `handleProcessQuizData` from the page component.  `data` is the parsed
response body: `none` models a body whose `quiz` field is missing or not an
array, `some qs` a body carrying the array `qs`.  The guard in the source
additionally requires the array to be non-empty. -/
def handleProcessQuizData (s : SessionState) (data : Option (List QuizQuestion))
    (isAppending : Bool) : SessionState :=
  match data with
  | some qs =>
    if 0 < qs.length then
      if isAppending then
        { s with questions := s.questions ++ qs
                 currentQuestionIndex := s.questions.length
                 selectedOption := none
                 isAnswered := false
                 quizStarted := true
                 quizFinished := false
                 errorMsg := none }
      else
        { s with questions := qs
                 currentQuestionIndex := 0
                 selectedOption := none
                 isAnswered := false
                 quizStarted := true
                 quizFinished := false
                 errorMsg := none }
    else
      if isAppending then
        { s with errorMsg := some "The API returned no new questions from the PDFs, or the format was unexpected." }
      else
        { s with errorMsg := some "No questions could be generated from these PDFs, or the data format was unexpected."
                 quizStarted := false
                 questions := [] }
  | none =>
    if isAppending then
      { s with errorMsg := some "The API returned no new questions from the PDFs, or the format was unexpected." }
    else
      { s with errorMsg := some "No questions could be generated from these PDFs, or the data format was unexpected."
               quizStarted := false
               questions := [] }

/-- `handleOptionSelect` from the page component: a no-op once answered,
otherwise records the selection, marks answered, and bumps the score when
the chosen option is correct. -/
def handleOptionSelect (s : SessionState) (o : QOption) : SessionState :=
  if s.isAnswered then s
  else
    { s with selectedOption := some o
             isAnswered := true
             score := if o.correct then s.score + 1 else s.score }

/-- `handleNextQuestion` from the page component.  Advances and clears the
answer cells while not on the last question, otherwise marks the quiz
finished.  (`questions.length - 1` is the saturating subtraction, which
agrees with the javascript comparison for every length.) -/
def handleNextQuestion (s : SessionState) : SessionState :=
  if s.currentQuestionIndex < s.questions.length - 1 then
    { s with currentQuestionIndex := s.currentQuestionIndex + 1
             selectedOption := none
             isAnswered := false }
  else
    { s with quizFinished := true }

/-- Outcome of the `fetch` against `/api/chat` as seen by the client:
either a 2xx response whose body parsed to `data`, or a failure (non-ok
status or thrown fetch) carrying the derived error message. -/
inductive FetchOutcome where
  | ok (data : Option (List QuizQuestion))
  | err (msg : String)
deriving Repr, DecidableEq

/-- `fetchQuizFromVectorStore` from the page component, as a state
transform indexed by the outcome of the HTTP call.  For a fresh (non
continuation) request the quiz cells are reset BEFORE the call; on failure
the error is stored and, for a fresh request, `quizStarted` is cleared. -/
def fetchQuizFromVectorStore (s : SessionState) (isContinuation : Bool)
    (outcome : FetchOutcome) : SessionState :=
  let s1 := { s with errorMsg := none }
  let s2 :=
    if isContinuation then s1
    else
      { s1 with questions := []
                currentQuestionIndex := 0
                selectedOption := none
                isAnswered := false
                score := 0
                quizFinished := false }
  match outcome with
  | .ok data => handleProcessQuizData s2 data isContinuation
  | .err msg =>
    let s3 := { s2 with errorMsg := some msg }
    if isContinuation then s3 else { s3 with quizStarted := false }

/-! ## Generation route (`POST /api/chat`)

The handler talks to the assistant runtime; every remote interaction is
summarised in a `ChatEnv` describing its outcome, so the handler becomes a
pure function of request and environment. -/

/-- The request body of `POST /api/chat`: `vectorStoreId` (`none` models a
missing or falsy field) and the `existingQuestions` field, together with
whether that field was an array at all. -/
structure ChatRequest where
  vectorStoreId : Option String
  existingQuestionsIsArray : Bool
  existingQuestions : List String

/-- Outcome of turning the assistant message text into a candidate quiz
payload: `ok payload` when either the direct JSON parse or the structured
fallback produced a value (not yet schema-checked), `fail` when the direct
parse failed and the fallback also failed to produce a parsed message. -/
inductive ParseOutcome where
  | ok (payload : List QuizQuestion)
  | fail
deriving Repr, DecidableEq

/-- Environment of one `POST /api/chat` call: outcomes of the remote
operations the handler performs, in the order it performs them. -/
structure ChatEnv where
  storeExists : Bool
  storeFileCount : Nat
  runStatus : String
  hasAssistantMessage : Bool
  parse : ParseOutcome
  assistantDelOk : Bool
  threadDelOk : Bool

/-- Observable result of one `POST /api/chat` call: the HTTP status and
body, plus whether the transient assistant and thread were created and
whether each was deleted by the end of the call. -/
structure ChatResult where
  status : Nat
  quiz : Option (List QuizQuestion)
  message : String
  resourcesCreated : Bool
  assistantDeleted : Bool
  threadDeleted : Bool
deriving Repr, DecidableEq

/-- The `POST` handler of `/api/chat`.  Faithful to the source control
flow: validations first (400/404 before any resource is created); then the
assistant and thread are created; a completed run is read, parsed and
schema-checked; `QuizSchema.parse` throwing a zod error is answered with
status 400, and on that path the two `del` calls are never reached.  A
failing `del` call throws and is mapped to a 500 by the outer catch. -/
def chatPOST (req : ChatRequest) (env : ChatEnv) : ChatResult :=
  match req.vectorStoreId with
  | none =>
    { status := 400, quiz := none
      message := "Vector store ID is required. Please upload PDF files first."
      resourcesCreated := false, assistantDeleted := false, threadDeleted := false }
  | some _ =>
    if !req.existingQuestionsIsArray then
      { status := 400, quiz := none
        message := "existingQuestions must be an array of strings."
        resourcesCreated := false, assistantDeleted := false, threadDeleted := false }
    else if !env.storeExists then
      { status := 404, quiz := none
        message := "Vector store not found or inaccessible. Please upload files again."
        resourcesCreated := false, assistantDeleted := false, threadDeleted := false }
    else if env.storeFileCount = 0 then
      { status := 400, quiz := none
        message := "No files found in the vector store. Please upload PDF files first."
        resourcesCreated := false, assistantDeleted := false, threadDeleted := false }
    else if env.runStatus = "completed" then
      if !env.hasAssistantMessage then
        { status := 500, quiz := none
          message := "No response from assistant"
          resourcesCreated := true, assistantDeleted := false, threadDeleted := false }
      else
        match env.parse with
        | .fail =>
          { status := 500, quiz := none
            message := "Failed to generate structured quiz response"
            resourcesCreated := true, assistantDeleted := false, threadDeleted := false }
        | .ok payload =>
          if quizSchemaValid payload then
            if env.assistantDelOk then
              if env.threadDelOk then
                { status := 200, quiz := some payload, message := ""
                  resourcesCreated := true, assistantDeleted := true, threadDeleted := true }
              else
                { status := 500, quiz := none
                  message := "thread delete failed"
                  resourcesCreated := true, assistantDeleted := true, threadDeleted := false }
            else
              { status := 500, quiz := none
                message := "assistant delete failed"
                resourcesCreated := true, assistantDeleted := false, threadDeleted := false }
          else
            { status := 400, quiz := none
              message := "Invalid quiz format generated by AI."
              resourcesCreated := true, assistantDeleted := false, threadDeleted := false }
    else
      if env.assistantDelOk then
        if env.threadDelOk then
          { status := 500, quiz := none
            message := "Assistant run failed with status: " ++ env.runStatus
            resourcesCreated := true, assistantDeleted := true, threadDeleted := true }
        else
          { status := 500, quiz := none
            message := "thread delete failed"
            resourcesCreated := true, assistantDeleted := true, threadDeleted := false }
      else
        { status := 500, quiz := none
          message := "assistant delete failed"
          resourcesCreated := true, assistantDeleted := false, threadDeleted := false }

/-- The HTTP status mapping of the generation route as stated by the
(amended) specification: 200 on full success; 400 for a missing handle, a
malformed `existingQuestions`, an empty store, or a generated quiz that
fails schema validation; 404 for an unresolvable handle; 500 when the run
does not complete, the response cannot be parsed, or resource cleanup
throws.  Compared against `chatPOST` below. -/
def chatStatusSpec (req : ChatRequest) (env : ChatEnv) : Nat :=
  if req.vectorStoreId = none then 400
  else if !req.existingQuestionsIsArray then 400
  else if !env.storeExists then 404
  else if env.storeFileCount = 0 then 400
  else if !(env.runStatus = "completed") then 500
  else if !env.hasAssistantMessage then 500
  else
    match env.parse with
    | .fail => 500
    | .ok payload =>
      if !(quizSchemaValid payload) then 400
      else if env.assistantDelOk && env.threadDelOk then 200
      else 500

/-! ## Upload route (`POST /api/upload`)

Embedding of the variant with size validation (the one with
`MAX_FILE_SIZE`/`MAX_TOTAL_SIZE`).  Remote file identifiers are modelled
by the position of the file in the batch. -/

/-- One file of the multipart upload batch: its name and byte size. -/
structure UploadFile where
  name : String
  size : Nat
deriving Repr, DecidableEq

/-- `MAX_FILE_SIZE` from the upload route: 20MB per file. -/
def MAX_FILE_SIZE : Nat := 20 * 1024 * 1024

/-- `MAX_TOTAL_SIZE` from the upload route: 200MB per batch. -/
def MAX_TOTAL_SIZE : Nat := 200 * 1024 * 1024

/-- The name check of the upload route:
`file.name.toLowerCase().endsWith(".pdf")`.  Lowercasing is mapped over
the characters and the suffix test is taken on the character list, which
is what the string-level operations compute. -/
def isPdfName (n : String) : Bool :=
  List.isSuffixOf ".pdf".data (n.data.map Char.toLower)

/-- The per-file validation loop of the upload route: walks the batch in
order accumulating the total size; the first file with a bad name or a bad
size decides the message (name checked before size, as in the source); the
aggregate size is checked after the loop. -/
def validateLoop : List UploadFile → Nat → Option String
  | [], total =>
    if total > MAX_TOTAL_SIZE then
      some "Total upload size is too large. Maximum total size is 50MB."
    else none
  | f :: rest, total =>
    if !(isPdfName f.name) then
      some ("File " ++ f.name ++ " is not a PDF. Please upload only PDF files.")
    else if f.size > MAX_FILE_SIZE then
      some ("File " ++ f.name ++ " is too large. Maximum file size is 10MB.")
    else validateLoop rest (total + f.size)

/-- Environment of one `POST /api/upload` call: the id the remote store
creation returns, which per-file upload calls succeed, the terminal status
the batch-attach poll reports, and which cleanup deletions succeed. -/
structure UploadEnv where
  storeId : String
  uploadOk : Nat → Bool
  batchStatus : String
  fileDelOk : Nat → Bool
  storeDelOk : Bool

/-- The distinct response kinds of the upload route. -/
inductive UploadOutcome where
  | validationError (msg : String)
  | success (storeId : String) (filesUploaded : Nat)
  | batchFailed
  | inProgress (storeId : String) (status : String)
  | uploadError (msg : String)
deriving Repr, DecidableEq

/-- The HTTP status each upload response kind is sent with.  A thrown
upload error carries a plain `Error` (message, no status field), so the
outer catch answers it with 500. -/
def UploadOutcome.httpStatus : UploadOutcome → Nat
  | .validationError _ => 400
  | .success _ _ => 200
  | .batchFailed => 500
  | .inProgress _ _ => 200
  | .uploadError _ => 500

/-- Observable result of one `POST /api/upload` call: the response, plus
whether the remote store was created, which file ids were uploaded, and
the cleanup activity (`cleanupCalledWith = some ids` when
`cleanupResources` ran over `ids`, together with which deletions actually
succeeded). -/
structure UploadResult where
  outcome : UploadOutcome
  storeCreated : Bool
  uploadedIds : List Nat
  cleanupCalledWith : Option (List Nat)
  cleanupFilesDeleted : List Nat
  cleanupStoreDeleted : Bool
deriving Repr, DecidableEq

/-- Index of the first file whose remote upload call fails, if any. -/
def firstUploadFail (n : Nat) (ok : Nat → Bool) : Option Nat :=
  (List.range n).find? (fun i => !ok i)

/-- `cleanupResources` from the upload route: tries to delete every
uploaded file id and then the store; each deletion failure is caught and
logged, so the walk always reaches the end.  Returns which file ids were
actually deleted and whether the store deletion succeeded. -/
def cleanupResources (env : UploadEnv) (fileIds : List Nat) : List Nat × Bool :=
  (fileIds.filter (fun i => env.fileDelOk i), env.storeDelOk)

/-- The `POST` handler of `/api/upload` (size-validating variant).
Faithful to the source control flow: count check, per-file name/size loop,
aggregate check, all before any remote call; then store creation, the
per-file upload loop (the first failure aborts it, runs `cleanupResources`
over the ids uploaded so far and rethrows), the batch attach-and-poll, and
the three-way dispatch on its terminal status. -/
def uploadPOST (files : List UploadFile) (env : UploadEnv) : UploadResult :=
  if files.length = 0 then
    { outcome := .validationError "No PDF files were uploaded. Please select at least one PDF file."
      storeCreated := false, uploadedIds := [], cleanupCalledWith := none
      cleanupFilesDeleted := [], cleanupStoreDeleted := false }
  else if files.length > 10 then
    { outcome := .validationError "Too many files. Please upload a maximum of 10 PDF files."
      storeCreated := false, uploadedIds := [], cleanupCalledWith := none
      cleanupFilesDeleted := [], cleanupStoreDeleted := false }
  else
    match validateLoop files 0 with
    | some msg =>
      { outcome := .validationError msg
        storeCreated := false, uploadedIds := [], cleanupCalledWith := none
        cleanupFilesDeleted := [], cleanupStoreDeleted := false }
    | none =>
      match firstUploadFail files.length env.uploadOk with
      | some k =>
        let ids := List.range k
        let cr := cleanupResources env ids
        { outcome := .uploadError ("Failed to upload file " ++ (files.getD k ⟨"", 0⟩).name ++ ". Please try again.")
          storeCreated := true, uploadedIds := ids, cleanupCalledWith := some ids
          cleanupFilesDeleted := cr.1, cleanupStoreDeleted := cr.2 }
      | none =>
        let ids := List.range files.length
        if env.batchStatus = "completed" then
          { outcome := .success env.storeId files.length
            storeCreated := true, uploadedIds := ids, cleanupCalledWith := none
            cleanupFilesDeleted := [], cleanupStoreDeleted := false }
        else if env.batchStatus = "failed" then
          let cr := cleanupResources env ids
          { outcome := .batchFailed
            storeCreated := true, uploadedIds := ids, cleanupCalledWith := some ids
            cleanupFilesDeleted := cr.1, cleanupStoreDeleted := cr.2 }
        else
          { outcome := .inProgress env.storeId env.batchStatus
            storeCreated := true, uploadedIds := ids, cleanupCalledWith := none
            cleanupFilesDeleted := [], cleanupStoreDeleted := false }

/-! ## Operation traces over the session state -/

/-- The two in-quiz user operations of the `Answering` phase. -/
inductive QuizOp where
  | select (o : QOption)
  | next
deriving Repr, DecidableEq

/-- One step of the in-quiz state machine. -/
def applyQuizOp (s : SessionState) : QuizOp → SessionState
  | .select o => handleOptionSelect s o
  | .next => handleNextQuestion s

/-- A whole in-quiz run from state `s`. -/
def runQuizOps (s : SessionState) (ops : List QuizOp) : SessionState :=
  ops.foldl applyQuizOp s

/-- Number of operations of a trace that answer a question: the select
operations arriving while the current question is not yet answered. -/
def effectiveSelects : SessionState → List QuizOp → Nat
  | _, [] => 0
  | s, op :: rest =>
    (match op with
     | .select _ => if s.isAnswered then 0 else 1
     | .next => 0) + effectiveSelects (applyQuizOp s op) rest

/-- Every operation of the session state machine, including the data
loading and reset edges. -/
inductive SessionOp where
  | select (o : QOption)
  | next
  | process (data : Option (List QuizQuestion)) (isAppending : Bool)
  | fetch (isContinuation : Bool) (outcome : FetchOutcome)
  | reset
deriving Repr, DecidableEq

/-- One step of the full session state machine. -/
def applySessionOp (s : SessionState) : SessionOp → SessionState
  | .select o => handleOptionSelect s o
  | .next => handleNextQuestion s
  | .process data isAppending => handleProcessQuizData s data isAppending
  | .fetch isContinuation outcome => fetchQuizFromVectorStore s isContinuation outcome
  | .reset => resetQuizState s

/-- The session state reached from the initial state by a trace. -/
def runSession (ops : List SessionOp) : SessionState :=
  ops.foldl applySessionOp initialSession

/-! ## Concrete sample data used by witnesses and counterexamples -/

/-- A sample valid question with one correct option. -/
def qA : QuizQuestion := ⟨"Capital of France?", [⟨"Paris", true⟩, ⟨"Lyon", false⟩]⟩

/-- A second sample valid question. -/
def qB : QuizQuestion := ⟨"Two plus two?", [⟨"4", true⟩, ⟨"5", false⟩, ⟨"6", false⟩]⟩

/-- A sample valid quiz payload. -/
def validQuiz : List QuizQuestion := [qA, qB]

/-- A question that passes `QuizSchema` yet has TWO correct options. -/
def twoCorrectQuestion : QuizQuestion :=
  ⟨"Which of these are prime numbers?", [⟨"2", true⟩, ⟨"3", true⟩]⟩

/-- A quiz payload carrying `twoCorrectQuestion`. -/
def twoCorrectQuiz : List QuizQuestion := [twoCorrectQuestion]

/-- A payload that fails `QuizSchema` (a question with no options). -/
def invalidQuiz : List QuizQuestion := [⟨"Broken question", []⟩]

/-- A well-formed generation request. -/
def reqOk : ChatRequest := ⟨some "vs_1", true, []⟩

/-- An environment whose completed run parses to `twoCorrectQuiz`. -/
def envTwoCorrect : ChatEnv := ⟨true, 3, "completed", true, .ok twoCorrectQuiz, true, true⟩

/-- An environment whose completed run parses to `validQuiz`. -/
def envValid : ChatEnv := ⟨true, 3, "completed", true, .ok validQuiz, true, true⟩

/-- An environment whose completed run parses to the schema-invalid
`invalidQuiz`. -/
def envSchemaFail : ChatEnv := ⟨true, 2, "completed", true, .ok invalidQuiz, true, true⟩

/-- A session sitting on an already answered question. -/
def answeredSession : SessionState :=
  { initialSession with questions := validQuiz, selectedOption := some ⟨"Paris", true⟩
                        isAnswered := true, score := 1, quizStarted := true }

/-- A session sitting on a not yet answered question. -/
def unansweredSession : SessionState :=
  { initialSession with questions := validQuiz, quizStarted := true }

/-- A finished session holding two questions and a score. -/
def finishedSession : SessionState :=
  { initialSession with questions := validQuiz, currentQuestionIndex := 1
                        selectedOption := some ⟨"4", true⟩, isAnswered := true
                        score := 2, quizStarted := true, quizFinished := true }

/-- A sample valid upload batch. -/
def wFiles : List UploadFile := [⟨"a.pdf", 100⟩, ⟨"b.pdf", 200⟩]

/-- A batch whose only file has a non-pdf name. -/
def badNameFiles : List UploadFile := [⟨"notes.txt", 5⟩]

/-- An upload environment where every remote call succeeds and the batch
attach completes. -/
def wUploadEnv : UploadEnv := ⟨"vs_w", fun _ => true, "completed", fun _ => true, true⟩

/-! ## Theorems -/

/-- C2: selecting an option on an already answered question is a no-op;
on an unanswered question it records the selection, marks the question
answered, and adds 1 to the score exactly when the option is correct. -/
theorem selectOption_first_selection_only (s : SessionState) (o : QOption) :
    (s.isAnswered = true → handleOptionSelect s o = s) ∧
    (s.isAnswered = false →
      (handleOptionSelect s o).selectedOption = some o ∧
      (handleOptionSelect s o).isAnswered = true ∧
      (handleOptionSelect s o).score = s.score + (if o.correct then 1 else 0)) := by
  constructor
  · intro h
    simp [handleOptionSelect, h]
  · intro h
    cases hc : o.correct <;> simp [handleOptionSelect, h, hc]

/-- Witness for C2 at concrete sessions. -/
theorem selectOption_first_selection_only_witness :
    handleOptionSelect answeredSession ⟨"Lyon", false⟩ = answeredSession ∧
    ((handleOptionSelect unansweredSession ⟨"Paris", true⟩).selectedOption = some ⟨"Paris", true⟩ ∧
     (handleOptionSelect unansweredSession ⟨"Paris", true⟩).isAnswered = true ∧
     (handleOptionSelect unansweredSession ⟨"Paris", true⟩).score
        = unansweredSession.score + (if (true : Bool) then 1 else 0)) :=
  ⟨(selectOption_first_selection_only answeredSession ⟨"Lyon", false⟩).1 (by decide),
   (selectOption_first_selection_only unansweredSession ⟨"Paris", true⟩).2 (by decide)⟩

/-- C4: with a non-empty existing list and a non-empty new set, a
successful continuation appends the new questions (resulting length is the
sum) and positions the index at the first appended question, while a
successful restart replaces the list (resulting length is the new length)
and resets index, score, selection and answered flag. -/
theorem moreQuestions_appends_restart_replaces (s : SessionState)
    (newQs : List QuizQuestion) (hold : 0 < s.questions.length)
    (hnew : 0 < newQs.length) :
    ((fetchQuizFromVectorStore s true (.ok (some newQs))).questions.length
        = s.questions.length + newQs.length ∧
     (fetchQuizFromVectorStore s true (.ok (some newQs))).currentQuestionIndex
        = s.questions.length) ∧
    ((fetchQuizFromVectorStore s false (.ok (some newQs))).questions.length
        = newQs.length ∧
     (fetchQuizFromVectorStore s false (.ok (some newQs))).currentQuestionIndex = 0 ∧
     (fetchQuizFromVectorStore s false (.ok (some newQs))).score = 0 ∧
     (fetchQuizFromVectorStore s false (.ok (some newQs))).selectedOption = none ∧
     (fetchQuizFromVectorStore s false (.ok (some newQs))).isAnswered = false) := by
  simp [fetchQuizFromVectorStore, handleProcessQuizData, hnew]

/-- Witness for C4 at a concrete finished session and a concrete new set. -/
theorem moreQuestions_appends_restart_replaces_witness :
    ((fetchQuizFromVectorStore finishedSession true (.ok (some twoCorrectQuiz))).questions.length
        = finishedSession.questions.length + twoCorrectQuiz.length ∧
     (fetchQuizFromVectorStore finishedSession true (.ok (some twoCorrectQuiz))).currentQuestionIndex
        = finishedSession.questions.length) ∧
    ((fetchQuizFromVectorStore finishedSession false (.ok (some twoCorrectQuiz))).questions.length
        = twoCorrectQuiz.length ∧
     (fetchQuizFromVectorStore finishedSession false (.ok (some twoCorrectQuiz))).currentQuestionIndex = 0 ∧
     (fetchQuizFromVectorStore finishedSession false (.ok (some twoCorrectQuiz))).score = 0 ∧
     (fetchQuizFromVectorStore finishedSession false (.ok (some twoCorrectQuiz))).selectedOption = none ∧
     (fetchQuizFromVectorStore finishedSession false (.ok (some twoCorrectQuiz))).isAnswered = false) :=
  moreQuestions_appends_restart_replaces finishedSession twoCorrectQuiz (by decide) (by decide)

/-- C9 counterexample: a restart request that fails does NOT leave the
session in the previous well-defined state with only the error set: the
question list and the score were already cleared before the failure. -/
theorem failed_restart_half_applied_counterexample :
    (fetchQuizFromVectorStore finishedSession false (.err "API Error: 500")).questions = [] ∧
    finishedSession.questions ≠ [] ∧
    (fetchQuizFromVectorStore finishedSession false (.err "API Error: 500")).score = 0 ∧
    finishedSession.score = 2 ∧
    fetchQuizFromVectorStore finishedSession false (.err "API Error: 500")
      ≠ { finishedSession with errorMsg := some "API Error: 500" } := by
  refine ⟨rfl, by decide, rfl, rfl, ?_⟩
  decide

/-- C9 as amended: a failed continuation request leaves every session cell
unchanged except the error message; a failed fresh or restart request
leaves the session reset (questions cleared, index, score, selection,
answered and finished flags reset, quiz not started) with the error set. -/
theorem failed_fetch_resulting_state (s : SessionState) (msg : String) :
    fetchQuizFromVectorStore s true (.err msg) = { s with errorMsg := some msg } ∧
    fetchQuizFromVectorStore s false (.err msg) =
      { s with questions := [], currentQuestionIndex := 0, selectedOption := none
               isAnswered := false, score := 0, quizFinished := false
               quizStarted := false, errorMsg := some msg } := by
  constructor <;> rfl

/-- Preservation step for the answered/selection invariant: every session
operation keeps `isAnswered` equal to `selectedOption.isSome`. -/
lemma answered_inv_step (s : SessionState) (op : SessionOp)
    (h : s.isAnswered = s.selectedOption.isSome) :
    (applySessionOp s op).isAnswered = (applySessionOp s op).selectedOption.isSome := by
  cases op with
  | select o =>
    by_cases hA : s.isAnswered <;> simp [applySessionOp, handleOptionSelect, hA] at h ⊢
    · exact h
  | next =>
    by_cases hI : s.currentQuestionIndex < s.questions.length - 1 <;>
      simp [applySessionOp, handleNextQuestion, hI, h]
  | process data isAppending =>
    cases data with
    | none => cases isAppending <;> simp [applySessionOp, handleProcessQuizData, h]
    | some qs =>
      by_cases hq : 0 < qs.length <;> cases isAppending <;>
        simp [applySessionOp, handleProcessQuizData, hq, h]
  | fetch isContinuation outcome =>
    cases outcome with
    | ok data =>
      cases data with
      | none =>
        cases isContinuation <;>
          simp [applySessionOp, fetchQuizFromVectorStore, handleProcessQuizData, h]
      | some qs =>
        by_cases hq : 0 < qs.length <;> cases isContinuation <;>
          simp [applySessionOp, fetchQuizFromVectorStore, handleProcessQuizData, hq, h]
    | err msg =>
      cases isContinuation <;> simp [applySessionOp, fetchQuizFromVectorStore, h]
  | reset =>
    simp [applySessionOp, resetQuizState]

/-- The answered/selection invariant transported along a trace. -/
lemma answered_inv_fold (ops : List SessionOp) :
    ∀ s : SessionState, s.isAnswered = s.selectedOption.isSome →
      (ops.foldl applySessionOp s).isAnswered
        = (ops.foldl applySessionOp s).selectedOption.isSome := by
  induction ops with
  | nil => intro s h; simpa using h
  | cons op rest ih =>
    intro s h
    simpa [List.foldl] using ih (applySessionOp s op) (answered_inv_step s op h)

/-- C10: in every session state reachable from the initial state by the
state machine operations, the answered flag is set exactly when a selected
option is recorded. -/
theorem answered_iff_selection_recorded (ops : List SessionOp) :
    (runSession ops).isAnswered = (runSession ops).selectedOption.isSome := by
  have h0 : initialSession.isAnswered = initialSession.selectedOption.isSome := by
    simp [initialSession]
  simpa [runSession] using answered_inv_fold ops initialSession h0

/-- One in-quiz step never lowers the score. -/
lemma applyQuizOp_score_mono (s : SessionState) (op : QuizOp) :
    s.score ≤ (applyQuizOp s op).score := by
  cases op with
  | select o =>
    by_cases hA : s.isAnswered <;> cases hc : o.correct <;>
      simp [applyQuizOp, handleOptionSelect, hA, hc]
  | next =>
    by_cases hI : s.currentQuestionIndex < s.questions.length - 1 <;>
      simp [applyQuizOp, handleNextQuestion, hI]

/-- One in-quiz step raises the score by at most the answering credit of
that step: 1 for a select on an unanswered question, 0 otherwise. -/
lemma applyQuizOp_score_le (s : SessionState) (op : QuizOp) :
    (applyQuizOp s op).score
      ≤ s.score + (match op with
                   | .select _ => if s.isAnswered then 0 else 1
                   | .next => 0) := by
  cases op with
  | select o =>
    by_cases hA : s.isAnswered <;> cases hc : o.correct <;>
      simp [applyQuizOp, handleOptionSelect, hA, hc]
  | next =>
    by_cases hI : s.currentQuestionIndex < s.questions.length - 1 <;>
      simp [applyQuizOp, handleNextQuestion, hI]

/-- Along a trace, the score gains at most one per answered question. -/
lemma runQuizOps_score_le (ops : List QuizOp) :
    ∀ s : SessionState, (runQuizOps s ops).score ≤ s.score + effectiveSelects s ops := by
  induction ops with
  | nil => intro s; simp [runQuizOps, effectiveSelects]
  | cons op rest ih =>
    intro s
    have h1 := ih (applyQuizOp s op)
    have h2 := applyQuizOp_score_le s op
    simp only [runQuizOps, List.foldl] at h1 ⊢
    cases op with
    | select o =>
      by_cases hA : s.isAnswered <;>
        simp only [hA, if_true, if_false, Bool.false_eq_true] at h2 <;>
        simp only [effectiveSelects, hA, if_true, if_false, Bool.false_eq_true] <;>
        omega
    | next =>
      have h2n : (applyQuizOp s QuizOp.next).score ≤ s.score + 0 := h2
      simp only [effectiveSelects]
      omega

/-- C3: within a quiz run the score never decreases, a step adds exactly 1
precisely when it is the first selection on the current question and that
selection is correct, and over any trace the score never exceeds the
number of questions answered along it. -/
theorem score_monotonic_bounded (s : SessionState) (op : QuizOp) (ops : List QuizOp) :
    s.score ≤ (applyQuizOp s op).score ∧
    ((applyQuizOp s op).score = s.score + 1 ↔
      ∃ o, op = QuizOp.select o ∧ o.correct = true ∧ s.isAnswered = false) ∧
    (runQuizOps s ops).score ≤ s.score + effectiveSelects s ops := by
  refine ⟨applyQuizOp_score_mono s op, ?_, runQuizOps_score_le ops s⟩
  constructor
  · intro h
    cases op with
    | select o =>
      by_cases hA : s.isAnswered
      · simp [applyQuizOp, handleOptionSelect, hA] at h
      · cases hc : o.correct
        · simp [applyQuizOp, handleOptionSelect, hA, hc] at h
        · exact ⟨o, rfl, hc, by simpa using hA⟩
    | next =>
      by_cases hI : s.currentQuestionIndex < s.questions.length - 1 <;>
        simp [applyQuizOp, handleNextQuestion, hI] at h
  · rintro ⟨o, rfl, hc, hA⟩
    simp [applyQuizOp, handleOptionSelect, hA, hc]

/-- C1 counterexample: a quiz whose only question has TWO options marked
correct passes the schema validation of the generation route, is returned
with status 200, and is accepted by the client into the answering phase,
so the exactly-one-correct invariant is never enforced. -/
theorem one_correct_not_enforced_counterexample :
    (chatPOST reqOk envTwoCorrect).status = 200 ∧
    (chatPOST reqOk envTwoCorrect).quiz = some twoCorrectQuiz ∧
    correctCount twoCorrectQuestion = 2 ∧
    (handleProcessQuizData initialSession (some twoCorrectQuiz) false).quizStarted = true ∧
    (handleProcessQuizData initialSession (some twoCorrectQuiz) false).questions = twoCorrectQuiz := by
  decide

/-- C1 as amended: every question set the generation route returns in a
200 response satisfies the enforced schema invariants, namely 1 to 10
questions, each with a non-empty text and 2 to 4 options with non-empty
texts; the count of options flagged correct is not checked. -/
theorem delivered_quiz_schema_valid (req : ChatRequest) (env : ChatEnv)
    (qs : List QuizQuestion) (h : (chatPOST req env).quiz = some qs) :
    quizSchemaValid qs = true := by
  obtain ⟨v, arr, ex⟩ := req
  obtain ⟨se, fc, rs, hm, pr, ad, td⟩ := env
  cases v with
  | none => simp [chatPOST] at h
  | some vid =>
    cases pr with
    | fail =>
      cases arr <;> cases se <;> cases hm <;> cases ad <;> cases td <;>
        by_cases hfc : fc = 0 <;> by_cases hrs : rs = "completed" <;>
        simp [chatPOST, hfc, hrs] at h
    | ok payload =>
      cases arr <;> cases se <;> cases hm <;> cases ad <;> cases td <;>
        by_cases hfc : fc = 0 <;> by_cases hrs : rs = "completed" <;>
        by_cases hq : quizSchemaValid payload <;>
        simp [chatPOST, hfc, hrs, hq] at h <;>
        simp [← h, hq]

/-- Witness for the amended C1 at a concrete environment that delivers
`validQuiz`. -/
theorem delivered_quiz_schema_valid_witness :
    quizSchemaValid validQuiz = true :=
  delivered_quiz_schema_valid reqOk envValid validQuiz (by decide)

/-- C7 failing input: a completed run whose parsed payload fails schema
validation is answered with status 400 while the transient assistant and
thread created for the request are never deleted. -/
theorem schema_failure_leaks_resources :
    (chatPOST reqOk envSchemaFail).resourcesCreated = true ∧
    (chatPOST reqOk envSchemaFail).assistantDeleted = false ∧
    (chatPOST reqOk envSchemaFail).threadDeleted = false ∧
    (chatPOST reqOk envSchemaFail).status = 400 := by
  decide

/-- C8 counterexample: when the generated quiz fails schema validation the
route answers 400, not the claimed 500. -/
theorem schema_failure_status_counterexample :
    (chatPOST reqOk envSchemaFail).status = 400 ∧
    (chatPOST reqOk envSchemaFail).status ≠ 500 := by
  decide

/-- C8 as amended: the status of `POST /api/chat` is 200 on full success;
400 for a missing handle, a malformed `existingQuestions`, an empty store,
or a generated quiz failing schema validation; 404 for an unresolvable
handle; 500 when the run does not complete, the response cannot be parsed,
or resource cleanup throws. -/
theorem chat_status_matches_spec (req : ChatRequest) (env : ChatEnv) :
    (chatPOST req env).status = chatStatusSpec req env := by
  obtain ⟨v, arr, ex⟩ := req
  obtain ⟨se, fc, rs, hm, pr, ad, td⟩ := env
  cases v with
  | none => rfl
  | some vid =>
    cases pr with
    | fail =>
      cases arr <;> cases se <;> cases hm <;> cases ad <;> cases td <;>
        by_cases hfc : fc = 0 <;> by_cases hrs : rs = "completed" <;>
        simp [chatPOST, chatStatusSpec, hfc, hrs]
    | ok payload =>
      cases arr <;> cases se <;> cases hm <;> cases ad <;> cases td <;>
        by_cases hfc : fc = 0 <;> by_cases hrs : rs = "completed" <;>
        by_cases hq : quizSchemaValid payload <;>
        simp [chatPOST, chatStatusSpec, hfc, hrs, hq]

/-- The validation loop reports an error whenever some file has a bad name
or a bad size, or the accumulated total exceeds the aggregate limit. -/
lemma validateLoop_isSome (files : List UploadFile) :
    ∀ total : Nat,
      ((∃ f ∈ files, isPdfName f.name = false) ∨
       (∃ f ∈ files, MAX_FILE_SIZE < f.size) ∨
       MAX_TOTAL_SIZE < total + (files.map UploadFile.size).sum) →
      (validateLoop files total).isSome := by
  induction files with
  | nil =>
    intro total h
    rcases h with ⟨f, hf, _⟩ | ⟨f, hf, _⟩ | htot
    · simp at hf
    · simp at hf
    · have : MAX_TOTAL_SIZE < total := by simpa using htot
      simp [validateLoop, this]
  | cons f rest ih =>
    intro total h
    by_cases hp : isPdfName f.name
    · by_cases hs : MAX_FILE_SIZE < f.size
      · simp [validateLoop, hp, hs]
      · have hrec : (validateLoop rest (total + f.size)).isSome := by
          apply ih
          rcases h with ⟨g, hg, hbad⟩ | ⟨g, hg, hbig⟩ | htot
          · rcases List.mem_cons.mp hg with rfl | hgr
            · rw [hp] at hbad; cases hbad
            · exact Or.inl ⟨g, hgr, hbad⟩
          · rcases List.mem_cons.mp hg with rfl | hgr
            · exact absurd hbig hs
            · exact Or.inr (Or.inl ⟨g, hgr, hbig⟩)
          · refine Or.inr (Or.inr ?_)
            simp only [List.map, List.sum_cons] at htot
            omega
        simpa [validateLoop, hp, hs] using hrec
    · simp [validateLoop, hp]

/-- C5: a batch violating any single constraint (empty batch, more than 10
files, a file over the per-file limit, aggregate over the total limit, a
file name without the pdf extension) is answered with a validation error
(HTTP 400) and no remote call is made: no store created, no file uploaded,
no cleanup. -/
theorem invalid_batch_rejected_locally (files : List UploadFile) (env : UploadEnv)
    (h : files = [] ∨ 10 < files.length ∨
         (∃ f ∈ files, isPdfName f.name = false) ∨
         (∃ f ∈ files, MAX_FILE_SIZE < f.size) ∨
         MAX_TOTAL_SIZE < (files.map UploadFile.size).sum) :
    (∃ msg, (uploadPOST files env).outcome = UploadOutcome.validationError msg) ∧
    (uploadPOST files env).outcome.httpStatus = 400 ∧
    (uploadPOST files env).storeCreated = false ∧
    (uploadPOST files env).uploadedIds = [] ∧
    (uploadPOST files env).cleanupCalledWith = none := by
  by_cases h0 : files.length = 0
  · have he : uploadPOST files env =
        { outcome := .validationError "No PDF files were uploaded. Please select at least one PDF file."
          storeCreated := false, uploadedIds := [], cleanupCalledWith := none
          cleanupFilesDeleted := [], cleanupStoreDeleted := false } := by
      simp [uploadPOST, h0]
    rw [he]
    exact ⟨⟨_, rfl⟩, rfl, rfl, rfl, rfl⟩
  · by_cases h10 : 10 < files.length
    · have he : uploadPOST files env =
          { outcome := .validationError "Too many files. Please upload a maximum of 10 PDF files."
            storeCreated := false, uploadedIds := [], cleanupCalledWith := none
            cleanupFilesDeleted := [], cleanupStoreDeleted := false } := by
        simp [uploadPOST, h0, h10]
      rw [he]
      exact ⟨⟨_, rfl⟩, rfl, rfl, rfl, rfl⟩
    · have hv : (validateLoop files 0).isSome := by
        apply validateLoop_isSome
        rcases h with h | h | h | h | h
        · exact absurd (by simp [h]) h0
        · exact absurd h h10
        · exact Or.inl h
        · exact Or.inr (Or.inl h)
        · exact Or.inr (Or.inr (by simpa using h))
      obtain ⟨msg, hm⟩ := Option.isSome_iff_exists.mp hv
      have he : uploadPOST files env =
          { outcome := .validationError msg
            storeCreated := false, uploadedIds := [], cleanupCalledWith := none
            cleanupFilesDeleted := [], cleanupStoreDeleted := false } := by
        simp [uploadPOST, h0, h10, hm]
      rw [he]
      exact ⟨⟨_, rfl⟩, rfl, rfl, rfl, rfl⟩

/-- Witness for C5 at a one-file batch whose name is not a pdf name. -/
theorem invalid_batch_rejected_locally_witness :
    (∃ msg, (uploadPOST badNameFiles wUploadEnv).outcome = UploadOutcome.validationError msg) ∧
    (uploadPOST badNameFiles wUploadEnv).outcome.httpStatus = 400 ∧
    (uploadPOST badNameFiles wUploadEnv).storeCreated = false ∧
    (uploadPOST badNameFiles wUploadEnv).uploadedIds = [] ∧
    (uploadPOST badNameFiles wUploadEnv).cleanupCalledWith = none :=
  invalid_batch_rejected_locally badNameFiles wUploadEnv (by decide)

/-- C6: on a batch passing validation, the route returns a success
response carrying the store handle only for the terminal attach status
"completed"; a "failed" attach triggers a rollback over every uploaded
file id and yields a 500; a failed individual upload triggers a rollback
over exactly the ids uploaded before it and yields a 500; any other attach
status yields the distinct in-progress response carrying the handle with
no rollback; and deletion failures during rollback never change the
response or the set of ids the rollback covers. -/
theorem upload_attach_outcomes (files : List UploadFile) (env : UploadEnv)
    (hn : ¬ files.length = 0) (h10 : ¬ 10 < files.length)
    (hv : validateLoop files 0 = none) :
    (firstUploadFail files.length env.uploadOk = none →
      ((env.batchStatus = "completed" →
          (uploadPOST files env).outcome = UploadOutcome.success env.storeId files.length ∧
          (uploadPOST files env).cleanupCalledWith = none) ∧
       (env.batchStatus = "failed" →
          (uploadPOST files env).outcome = UploadOutcome.batchFailed ∧
          (uploadPOST files env).outcome.httpStatus = 500 ∧
          (uploadPOST files env).cleanupCalledWith = some (List.range files.length)) ∧
       (env.batchStatus ≠ "completed" → env.batchStatus ≠ "failed" →
          (uploadPOST files env).outcome = UploadOutcome.inProgress env.storeId env.batchStatus ∧
          (uploadPOST files env).cleanupCalledWith = none))) ∧
    (∀ k, firstUploadFail files.length env.uploadOk = some k →
       (uploadPOST files env).outcome.httpStatus = 500 ∧
       (uploadPOST files env).uploadedIds = List.range k ∧
       (uploadPOST files env).cleanupCalledWith = some (List.range k)) ∧
    (∀ sid n, (uploadPOST files env).outcome = UploadOutcome.success sid n →
       env.batchStatus = "completed") ∧
    (∀ fd sd,
       (uploadPOST files { env with fileDelOk := fd, storeDelOk := sd }).outcome
          = (uploadPOST files env).outcome ∧
       (uploadPOST files { env with fileDelOk := fd, storeDelOk := sd }).cleanupCalledWith
          = (uploadPOST files env).cleanupCalledWith) := by
  refine ⟨?_, ?_, ?_, ?_⟩
  · intro hfu
    refine ⟨?_, ?_, ?_⟩
    · intro hb
      constructor <;> simp [uploadPOST, hn, h10, hv, hfu, hb]
    · intro hb
      refine ⟨?_, ?_, ?_⟩ <;>
        simp [uploadPOST, hn, h10, hv, hfu, hb, UploadOutcome.httpStatus]
    · intro hb1 hb2
      constructor <;> simp [uploadPOST, hn, h10, hv, hfu, hb1, hb2]
  · intro k hfu
    refine ⟨?_, ?_, ?_⟩ <;>
      simp [uploadPOST, hn, h10, hv, hfu, UploadOutcome.httpStatus]
  · intro sid n hsucc
    by_cases hb : env.batchStatus = "completed"
    · exact hb
    · exfalso
      by_cases hb2 : env.batchStatus = "failed" <;>
        cases hfu : firstUploadFail files.length env.uploadOk <;>
        simp [uploadPOST, hn, h10, hv, hfu, hb, hb2] at hsucc
  · intro fd sd
    by_cases hb : env.batchStatus = "completed" <;>
      by_cases hb2 : env.batchStatus = "failed" <;>
      cases hfu : firstUploadFail files.length env.uploadOk <;>
      constructor <;>
      simp [uploadPOST, hn, h10, hv, hfu, hb, hb2]

/-- Witness for C6: a valid two-file batch against an environment whose
uploads all succeed and whose attach completes. -/
theorem upload_attach_outcomes_witness :
    (uploadPOST wFiles wUploadEnv).outcome
        = UploadOutcome.success wUploadEnv.storeId wFiles.length ∧
    (uploadPOST wFiles wUploadEnv).cleanupCalledWith = none :=
  ((upload_attach_outcomes wFiles wUploadEnv (by decide) (by decide)
      (by decide)).1 (by decide)).1 (by decide)
